import Mathlib

/-!
Verification of `gatsby-source-s3` (src/source-nodes.ts) against its
natural-language specification.

The module is a single-pass ingestion pipeline:
list S3 objects, filter images, construct a URL per object, delegate
fetching to `createRemoteFileNode`, then register an `S3ImageAsset` node via
the host's `createNode`.

Embedding notes:
* JavaScript `undefined`/falsy values are modelled with `Option` (`none`).
* The per-object async function in `sourceNodes` is modelled as a pure
  function `processEntity` returning the value its promise resolves to
  (`slot`), plus the fetch calls and `createNode` calls it performs.
* `_.compact` in `sourceNodes` is applied to the array of Promises returned
  by `map` (before `Promise.all`); a Promise object is always truthy, so at
  that point `_.compact` keeps every element.  The resolved array therefore
  has exactly one slot per listed entity, with `undefined` in the slots of
  skipped or failed entities.  The embedding reflects this faithfully.
* `mime.lookup` (external npm library `mime-types`) is an opaque
  collaborator and is passed in as a parameter `mimeLookup : String →
  Option String` (`none` models its `false` return).
-/

namespace GatsbySourceS3

/-- Constant `S3SourceGatsbyNodeType = 'S3ImageAsset'` from source-nodes.ts. -/
def S3SourceGatsbyNodeType : String := "S3ImageAsset"

/-- An S3 object descriptor (`S3.Object` from the AWS SDK): the fields this
module reads.  `Key` and `ETag` are optional in the SDK's type, hence
`Option`.  `Size` stands in for the remaining metadata carried along by the
`...entity` spread. -/
structure S3Object where
  Key : Option String := none
  ETag : Option String := none
  Size : Option Nat := none
deriving Repr, DecidableEq

/-- The local file node returned by `createRemoteFileNode`
(gatsby-source-filesystem's `FileSystemNode`): the two fields this module
reads (`_.get(fileNode, 'id')`, `_.get(fileNode, 'absolutePath')`). -/
structure FileSystemNode where
  id : String
  absolutePath : String
deriving Repr, DecidableEq

/-- The `internal` metadata block placed on the created node. -/
structure InternalBlock where
  content : String
  contentDigest : String
  mediaType : Option String
  type : String
deriving Repr, DecidableEq

/-- The node object passed to the host's `createNode`.  The `entity` field
models the `...entity` spread of all original object-descriptor fields; the
explicit fields after the spread (`absolutePath`, `ETag`, `id`, `Key`,
`parent`, `internal`) are the ones source-nodes.ts sets itself. -/
structure S3ImageAssetNode where
  entity : S3Object
  absolutePath : String
  ETag : String
  id : String
  Key : String
  parent : String
  internal : InternalBlock
deriving Repr, DecidableEq

/-- Embedding of `ETag!.replace(/"/g, '')`: remove every double-quote
character, leave all other characters unchanged and in order. -/
def stripQuotes (s : String) : String :=
  String.mk (s.data.filter (fun c => c != '"'))

/-- Result record of `getEntityNodeFields`. -/
structure EntityNodeFields where
  absolutePath : String
  fileNodeId : String
  Key : String
  mediaType : Option String
  objectHash : String
deriving Repr, DecidableEq

/-- Embedding of `getEntityNodeFields` from source-nodes.ts.
`Key` defaults to `''` when absent (`const { ETag, Key = '' } = entity`);
`mediaType = mime.lookup(Key)`.  When `entity.ETag` is `undefined`, the
expression `ETag!.replace(...)` throws a `TypeError` at runtime (the `!` is
only a compile-time assertion); the `none` result models that synchronous
throw. -/
def getEntityNodeFields (mimeLookup : String → Option String)
    (entity : S3Object) (fileNode : FileSystemNode) :
    Option EntityNodeFields :=
  let key := entity.Key.getD ""
  let mediaType := mimeLookup key
  match entity.ETag with
  | none => none
  | some e =>
    some { absolutePath := fileNode.absolutePath
           fileNodeId := fileNode.id
           Key := key
           mediaType := mediaType
           objectHash := stripQuotes e }

/-- Possible outcomes of `createS3ImageAssetNode`, with `R` the return type
of the host's `createNode`:
* `rejected msg` — the function returned `Promise.reject(msg)`;
* `thrown` — a synchronous exception escaped (missing `ETag` makes
  `getEntityNodeFields` throw a `TypeError`);
* `created node r` — `createNode(node)` was invoked and its result `r`
  returned. -/
inductive BuildResult (R : Type) where
  | rejected (msg : String)
  | thrown
  | created (node : S3ImageAssetNode) (res : R)
deriving Repr, DecidableEq

/-- The node carried by a `created` outcome, if any. -/
def BuildResult.node? {R : Type} : BuildResult R → Option S3ImageAssetNode
  | BuildResult.created n _ => some n
  | _ => none

/-- Embedding of `createS3ImageAssetNode` from source-nodes.ts.  A falsy
`fileNode` (here `none`) yields a rejected promise before anything else
happens; otherwise the node is assembled from `getEntityNodeFields` and
handed to `createNode`, whose result is returned unchanged. -/
def createS3ImageAssetNode {R : Type} (createNode : S3ImageAssetNode → R)
    (createNodeId : String → String) (mimeLookup : String → Option String)
    (entity : S3Object) (fileNode : Option FileSystemNode) (url : String) :
    BuildResult R :=
  match fileNode with
  | none =>
    BuildResult.rejected
      "File node must be defined when invoking `createS3ImageAssetNode`."
  | some fn =>
    match getEntityNodeFields mimeLookup entity fn with
    | none => BuildResult.thrown
    | some f =>
      let node : S3ImageAssetNode :=
        { entity := entity
          absolutePath := f.absolutePath
          ETag := f.objectHash
          id := createNodeId f.objectHash
          Key := f.Key
          parent := f.fileNodeId
          internal :=
            { content := url
              contentDigest := f.objectHash
              mediaType := f.mediaType
              type := S3SourceGatsbyNodeType } }
      BuildResult.created node (createNode node)

/-- The characters of `t` before the first `/` (the top-level MIME type). -/
def mimeTopLevel (t : String) : String :=
  String.mk (t.data.takeWhile (fun c => c != '/'))

/-- Modelled from the spec: `isImage` lives in src/utils.ts, which is not
part of the provided sources.  Spec §4.2: "classifies by deriving a MIME
type from the object key's extension and testing whether its top-level type
is `image`.  Objects whose key yields no resolvable MIME type, or a
non-image type, are excluded." -/
def isImage (mimeLookup : String → Option String) (entity : S3Object) :
    Bool :=
  match entity.Key with
  | none => false
  | some k =>
    match mimeLookup k with
    | none => false
    | some t => mimeTopLevel t == "image"

/-- Modelled from the spec: `constructS3UrlForAsset` lives in src/utils.ts,
which is not part of the provided sources.  Spec §4.2/§8: pure string
construction `protocol://domain/bucketName/key`; "fails (returns an
empty/undefined result) if `key` is absent"; "returns no result when key is
empty/absent". -/
def constructS3UrlForAsset (bucketName domain : String)
    (key : Option String) (protocol : String) : Option String :=
  match key with
  | none => none
  | some k =>
    if k = "" then none
    else some (protocol ++ "://" ++ domain ++ "/" ++ bucketName ++ "/" ++ k)

/-- Possible behaviours of `createRemoteFileNode` for one URL:
resolve to a file node, resolve to a falsy value, or reject/throw. -/
inductive FetchOutcome where
  | ok (fileNode : FileSystemNode)
  | falsy
  | err (msg : String)
deriving Repr, DecidableEq

/-- The environment a pipeline run closes over: plugin options, the external
MIME library, the behaviour of `createRemoteFileNode`, and the host's
`createNode` / `createNodeId`.  `R` is `createNode`'s return type. -/
structure PipelineEnv (R : Type) where
  bucketName : String
  domain : String := "s3.amazonaws.com"
  protocol : String := "http"
  mimeLookup : String → Option String
  fetch : String → FetchOutcome
  createNode : S3ImageAssetNode → R
  createNodeId : String → String

/-- What one entity's async arrow function does: the value its promise
resolves to (`none` models resolving with `undefined`), the URLs passed to
`createRemoteFileNode`, and the nodes passed to `createNode`. -/
structure EntityTrace (R : Type) where
  slot : Option R
  fetchCalls : List String
  createNodeCalls : List S3ImageAssetNode
deriving Repr, DecidableEq

/-- Embedding of the per-entity async arrow function inside `sourceNodes`:
skip non-images (no fetch), skip entities with no constructible URL, then
inside the `try` block fetch the remote file (a falsy result is a silent
skip) and build the node.  Any exception in the `try` block — a fetch
rejection, a synchronous throw from `getEntityNodeFields`, or an awaited
rejection from `createS3ImageAssetNode` — is caught; the catch block only
creates an unawaited `Promise.reject`, so the arrow function resolves with
`undefined` (`slot = none`). -/
def processEntity {R : Type} (env : PipelineEnv R) (entity : S3Object) :
    EntityTrace R :=
  if isImage env.mimeLookup entity then
    match constructS3UrlForAsset env.bucketName env.domain entity.Key
        env.protocol with
    | none => { slot := none, fetchCalls := [], createNodeCalls := [] }
    | some url =>
      match env.fetch url with
      | FetchOutcome.err _ =>
        { slot := none, fetchCalls := [url], createNodeCalls := [] }
      | FetchOutcome.falsy =>
        { slot := none, fetchCalls := [url], createNodeCalls := [] }
      | FetchOutcome.ok fn =>
        match createS3ImageAssetNode env.createNode env.createNodeId
            env.mimeLookup entity (some fn) url with
        | BuildResult.created node r =>
          { slot := some r, fetchCalls := [url], createNodeCalls := [node] }
        | BuildResult.rejected _ =>
          { slot := none, fetchCalls := [url], createNodeCalls := [] }
        | BuildResult.thrown =>
          { slot := none, fetchCalls := [url], createNodeCalls := [] }
  else { slot := none, fetchCalls := [], createNodeCalls := [] }

/-- The value `sourceNodes` resolves to, together with the external calls
made during the run. -/
structure PipelineResult (R : Type) where
  result : List (Option R)
  fetchCalls : List String
  createNodeCalls : List S3ImageAssetNode
deriving Repr, DecidableEq

/-- Embedding of `sourceNodes` from source-nodes.ts, starting from the
listing response's `Contents` field (`none` models an absent field).  When
`Contents` is absent or empty the function returns `[]`.  Otherwise it maps
the per-entity async function over the entities, applies `_.compact` to the
resulting array of Promises — every Promise object is truthy, so nothing is
removed — and awaits them all, yielding one resolved slot per entity in
listing order. -/
def sourceNodes {R : Type} (env : PipelineEnv R)
    (contents : Option (List S3Object)) : PipelineResult R :=
  match contents with
  | none => { result := [], fetchCalls := [], createNodeCalls := [] }
  | some entities =>
    if entities.isEmpty then
      { result := [], fetchCalls := [], createNodeCalls := [] }
    else
      { result := entities.map (fun e => (processEntity env e).slot)
        fetchCalls :=
          (entities.map (fun e => (processEntity env e).fetchCalls)).flatten
        createNodeCalls :=
          (entities.map
            (fun e => (processEntity env e).createNodeCalls)).flatten }

/-!  Sample data used by the concrete witnesses below. -/

/-- A small stand-in for the external `mime-types` lookup, enough to cover
the spec's concrete examples. -/
def sampleMime : String → Option String := fun k =>
  if k = "photos/cat.jpg" then some "image/jpeg"
  else if k = "cat.jpg" then some "image/jpeg"
  else if k = "readme.txt" then some "text/plain"
  else none

/-- A sample fetched file node. -/
def sampleFileNode : FileSystemNode :=
  { id := "file-node-1", absolutePath := "/cache/photos/cat.jpg" }

/-- A sample image object with a quoted ETag (spec §8's concrete example). -/
def catObject : S3Object :=
  { Key := some "photos/cat.jpg", ETag := some "\"abc123\"", Size := some 4 }

/-- A sample pipeline environment, parameterised by the fetch behaviour;
`createNode` returns the node it was given. -/
def sampleEnv (fetch : String → FetchOutcome) :
    PipelineEnv S3ImageAssetNode :=
  { bucketName := "my-bucket"
    domain := "s3.amazonaws.com"
    protocol := "https"
    mimeLookup := sampleMime
    fetch := fetch
    createNode := fun n => n
    createNodeId := fun s => s }

/-- Claim C6: if the listing response has no `Contents` field, or `Contents`
is an empty list, `sourceNodes` returns an empty sequence, makes no fetch
calls and no `createNode` calls, and terminates normally. -/
theorem claim_C6 {R : Type} (env : PipelineEnv R) :
    sourceNodes env none =
      { result := [], fetchCalls := [], createNodeCalls := [] } ∧
    sourceNodes env (some []) =
      { result := [], fetchCalls := [], createNodeCalls := [] } :=
  ⟨rfl, rfl⟩

/-- Claim C3: for every entity whose ETag is defined, the `objectHash`
computed by `getEntityNodeFields` contains zero double-quote characters and
is character-for-character the original ETag with exactly the double-quote
characters deleted. -/
theorem claim_C3 (mimeLookup : String → Option String) (entity : S3Object)
    (fileNode : FileSystemNode) (t : String) (h : entity.ETag = some t) :
    ∃ f, getEntityNodeFields mimeLookup entity fileNode = some f ∧
      f.objectHash = stripQuotes t ∧
      (∀ c ∈ f.objectHash.data, c ≠ '"') ∧
      f.objectHash.data = t.data.filter (fun c => c != '"') := by
  refine
    ⟨{ absolutePath := fileNode.absolutePath
       fileNodeId := fileNode.id
       Key := entity.Key.getD ""
       mediaType := mimeLookup (entity.Key.getD "")
       objectHash := stripQuotes t },
     by simp [getEntityNodeFields, h], rfl, ?_, rfl⟩
  intro c hc
  have hc' : c ∈ t.data ∧ ¬c = '"' := by simpa [stripQuotes] using hc
  exact hc'.2

/-- Claim C3 witness: the quoted ETag `"abc123"` yields objectHash
`abc123`. -/
theorem claim_C3_witness :
    ∃ f, getEntityNodeFields sampleMime catObject sampleFileNode = some f ∧
      f.objectHash = stripQuotes "\"abc123\"" ∧
      (∀ c ∈ f.objectHash.data, c ≠ '"') ∧
      f.objectHash.data = "\"abc123\"".data.filter (fun c => c != '"') :=
  claim_C3 sampleMime catObject sampleFileNode "\"abc123\"" rfl

/-- Claim C5: with a defined fileNode and ETag, `createS3ImageAssetNode`
invokes the host's `createNode` on exactly the node carrying all original
entity fields (the spread), `Key` (defaulted to the empty string when
absent), `absolutePath` and `parent` from the file node, `ETag` and
`contentDigest` set to the unquoted hash, `id = createNodeId(objectHash)`,
and the internal block with `content = url`, the MIME type resolved from
`Key`, and type `S3ImageAsset`. -/
theorem claim_C5 {R : Type} (createNode : S3ImageAssetNode → R)
    (createNodeId : String → String) (mimeLookup : String → Option String)
    (entity : S3Object) (fileNode : FileSystemNode) (url : String)
    (t : String) (h : entity.ETag = some t) :
    createS3ImageAssetNode createNode createNodeId mimeLookup entity
        (some fileNode) url =
      BuildResult.created
        { entity := entity
          absolutePath := fileNode.absolutePath
          ETag := stripQuotes t
          id := createNodeId (stripQuotes t)
          Key := entity.Key.getD ""
          parent := fileNode.id
          internal :=
            { content := url
              contentDigest := stripQuotes t
              mediaType := mimeLookup (entity.Key.getD "")
              type := S3SourceGatsbyNodeType } }
        (createNode
          { entity := entity
            absolutePath := fileNode.absolutePath
            ETag := stripQuotes t
            id := createNodeId (stripQuotes t)
            Key := entity.Key.getD ""
            parent := fileNode.id
            internal :=
              { content := url
                contentDigest := stripQuotes t
                mediaType := mimeLookup (entity.Key.getD "")
                type := S3SourceGatsbyNodeType } }) := by
  simp [createS3ImageAssetNode, getEntityNodeFields, h]

/-- Claim C5 witness: the node built for the sample cat.jpg object has the
exact field values of spec §8's concrete example. -/
theorem claim_C5_witness :
    createS3ImageAssetNode (fun n => n) (fun s => s) sampleMime catObject
        (some sampleFileNode)
        "https://s3.amazonaws.com/my-bucket/photos/cat.jpg" =
      BuildResult.created
        { entity := catObject
          absolutePath := sampleFileNode.absolutePath
          ETag := stripQuotes "\"abc123\""
          id := stripQuotes "\"abc123\""
          Key := catObject.Key.getD ""
          parent := sampleFileNode.id
          internal :=
            { content := "https://s3.amazonaws.com/my-bucket/photos/cat.jpg"
              contentDigest := stripQuotes "\"abc123\""
              mediaType := sampleMime (catObject.Key.getD "")
              type := S3SourceGatsbyNodeType } }
        { entity := catObject
          absolutePath := sampleFileNode.absolutePath
          ETag := stripQuotes "\"abc123\""
          id := stripQuotes "\"abc123\""
          Key := catObject.Key.getD ""
          parent := sampleFileNode.id
          internal :=
            { content := "https://s3.amazonaws.com/my-bucket/photos/cat.jpg"
              contentDigest := stripQuotes "\"abc123\""
              mediaType := sampleMime (catObject.Key.getD "")
              type := S3SourceGatsbyNodeType } } :=
  claim_C5 (fun n => n) (fun s => s) sampleMime catObject sampleFileNode
    "https://s3.amazonaws.com/my-bucket/photos/cat.jpg" "\"abc123\"" rfl

/-- Claim C9: invoked with a missing/falsy fileNode,
`createS3ImageAssetNode` returns a rejected promise carrying the contract
message; the result is independent of the host's `createNode` (the function
is never called), and the rejection is the direct return value, not a
silent skip. -/
theorem claim_C9 {R : Type} (createNode createNode' : S3ImageAssetNode → R)
    (createNodeId : String → String) (mimeLookup : String → Option String)
    (entity : S3Object) (url : String) :
    createS3ImageAssetNode createNode createNodeId mimeLookup entity none
        url =
      BuildResult.rejected
        "File node must be defined when invoking `createS3ImageAssetNode`." ∧
    createS3ImageAssetNode createNode createNodeId mimeLookup entity none
        url =
      createS3ImageAssetNode createNode' createNodeId mimeLookup entity none
        url :=
  ⟨rfl, rfl⟩

/-- Claim C10: when the entity's ETag is absent, `getEntityNodeFields`
throws synchronously (modelled by `none`), and `createS3ImageAssetNode`
with a valid fileNode therefore throws rather than skipping, rejecting with
the contract message, or producing a node. -/
theorem claim_C10 {R : Type} (createNode : S3ImageAssetNode → R)
    (createNodeId : String → String) (mimeLookup : String → Option String)
    (entity : S3Object) (fileNode : FileSystemNode) (url : String)
    (h : entity.ETag = none) :
    getEntityNodeFields mimeLookup entity fileNode = none ∧
    createS3ImageAssetNode createNode createNodeId mimeLookup entity
        (some fileNode) url = BuildResult.thrown := by
  constructor
  · simp [getEntityNodeFields, h]
  · simp [createS3ImageAssetNode, getEntityNodeFields, h]

/-- Claim C10 witness: an object with a key but no ETag makes the node
builder throw even though the file node is valid. -/
theorem claim_C10_witness :
    getEntityNodeFields sampleMime { Key := some "photos/cat.jpg" }
        sampleFileNode = none ∧
    createS3ImageAssetNode (fun n => n) (fun s => s) sampleMime
        { Key := some "photos/cat.jpg" } (some sampleFileNode) "u" =
      BuildResult.thrown :=
  claim_C10 (fun n => n) (fun s => s) sampleMime
    { Key := some "photos/cat.jpg" } sampleFileNode "u" rfl

/-- A sample non-image object (spec §8's concrete example). -/
def readmeObject : S3Object := { Key := some "readme.txt" }

/-- A second sample image object, whose ETag differs from `catObject`'s in
its unquoted form as well. -/
def zzzObject : S3Object :=
  { Key := some "cat.jpg", ETag := some "\"zzz\"" }

/-- Claim C1 (code-bug evidence): `_.compact` runs on the array of Promises
(every Promise is truthy), so nothing is ever collapsed out: a listing with
one non-image object resolves to a one-element sequence holding an
undefined placeholder, not to an empty sequence; in general the resolved
sequence always has exactly one slot per listed entity. -/
theorem claim_C1_eval :
    (sourceNodes (sampleEnv (fun _ => FetchOutcome.falsy))
        (some [readmeObject])).result = [none] ∧
    (sourceNodes (sampleEnv (fun _ => FetchOutcome.falsy))
        (some [readmeObject])).result ≠ [] ∧
    ∀ (R : Type) (env : PipelineEnv R) (entities : List S3Object),
      (sourceNodes env (some entities)).result.length = entities.length := by
  refine ⟨by decide, by decide, ?_⟩
  intro R env entities
  cases entities with
  | nil => rfl
  | cons a l => simp [sourceNodes]

/-- The per-object fetch-and-build step (the body of the `try` block)
throws an exception for this entity at this url: the fetch rejects, or the
fetch resolves to a file node and the node build either throws
synchronously (missing ETag) or returns a rejected promise, which the
`await` turns into a throw.  A falsy fetch result is a silent skip, not an
exception, and is deliberately not included. -/
def fetchAndBuildThrows {R : Type} (env : PipelineEnv R)
    (entity : S3Object) (url : String) : Prop :=
  (∃ msg, env.fetch url = FetchOutcome.err msg) ∨
  (∃ fn, env.fetch url = FetchOutcome.ok fn ∧
    (createS3ImageAssetNode env.createNode env.createNodeId env.mimeLookup
        entity (some fn) url = BuildResult.thrown ∨
      ∃ msg, createS3ImageAssetNode env.createNode env.createNodeId
        env.mimeLookup entity (some fn) url = BuildResult.rejected msg))

/-- Claim C2: an object whose fetch-and-build step throws any exception — a
fetch rejection, a synchronous build-phase throw, or an awaited rejection
from the node builder — is caught at that object's boundary: its promise
resolves with `undefined` (no created node), and the overall run still
resolves, each other object's slot depending only on that object's own
processing. -/
theorem claim_C2 {R : Type} (env : PipelineEnv R) (entities : List S3Object)
    (entity : S3Object) (url : String)
    (himg : isImage env.mimeLookup entity = true)
    (hurl : constructS3UrlForAsset env.bucketName env.domain entity.Key
      env.protocol = some url)
    (hthrow : fetchAndBuildThrows env entity url) :
    (processEntity env entity).slot = none ∧
    (processEntity env entity).createNodeCalls = [] ∧
    (sourceNodes env (some entities)).result =
      entities.map (fun e => (processEntity env e).slot) := by
  have hslot : processEntity env entity =
      { slot := none, fetchCalls := [url], createNodeCalls := [] } := by
    rcases hthrow with ⟨msg, herr⟩ | ⟨fn, hok, hthrown | ⟨msg, hrej⟩⟩
    · simp [processEntity, himg, hurl, herr]
    · simp [processEntity, himg, hurl, hok, hthrown]
    · simp [processEntity, himg, hurl, hok, hrej]
  refine ⟨by simp [hslot], by simp [hslot], ?_⟩
  cases entities with
  | nil => rfl
  | cons a l => simp [sourceNodes]

/-- An image-typed object with no ETag: its fetch succeeds but the build
phase throws synchronously. -/
def noEtagObject : S3Object := { Key := some "cat.jpg" }

/-- Claim C2 witness: a build-phase throw (successful fetch of an
image-typed object whose ETag is absent) is swallowed — the object's slot
is `undefined`, no node is created for it, and the run resolves slot-wise. -/
theorem claim_C2_witness :
    (processEntity (sampleEnv (fun _ => FetchOutcome.ok sampleFileNode))
      noEtagObject).slot = none ∧
    (processEntity (sampleEnv (fun _ => FetchOutcome.ok sampleFileNode))
      noEtagObject).createNodeCalls = [] ∧
    (sourceNodes (sampleEnv (fun _ => FetchOutcome.ok sampleFileNode))
        (some [noEtagObject])).result =
      [noEtagObject].map
        (fun e =>
          (processEntity
            (sampleEnv (fun _ => FetchOutcome.ok sampleFileNode)) e).slot) :=
  claim_C2 (sampleEnv (fun _ => FetchOutcome.ok sampleFileNode))
    [noEtagObject] noEtagObject "https://s3.amazonaws.com/my-bucket/cat.jpg"
    (by decide) (by decide)
    (Or.inr ⟨sampleFileNode, rfl, Or.inl rfl⟩)

/-- Claim C4 counterexample: with the identity as the (injective,
deterministic) host id function, the ETags `"a"` (quoted) and `a`
(unquoted) are distinct, yet the two built nodes have the same `id` —
distinct ETags do not always yield distinct ids. -/
theorem claim_C4_counterexample :
    Function.Injective (fun s : String => s) ∧
    (some "\"a\"" : Option String) ≠ some "a" ∧
    (createS3ImageAssetNode (fun n => n) (fun s => s) sampleMime
        { Key := some "cat.jpg", ETag := some "\"a\"" }
        (some sampleFileNode) "u").node?.map S3ImageAssetNode.id =
      (createS3ImageAssetNode (fun n => n) (fun s => s) sampleMime
        { Key := some "cat.jpg", ETag := some "a" }
        (some sampleFileNode) "u").node?.map S3ImageAssetNode.id :=
  ⟨fun a b hab => hab, by decide, by decide⟩

/-- Claim C4 (amended): the node's id is exactly `createNodeId` applied to
the unquoted ETag; two objects with the same unquoted ETag yield the same
id, and two objects whose unquoted ETags differ yield different ids when
the host's `createNodeId` is injective. -/
theorem claim_C4 {R : Type} (createNode : S3ImageAssetNode → R)
    (createNodeId : String → String) (mimeLookup : String → Option String)
    (e1 e2 : S3Object) (fn1 fn2 : FileSystemNode) (u1 u2 : String)
    (t1 t2 : String) (h1 : e1.ETag = some t1) (h2 : e2.ETag = some t2)
    (hinj : Function.Injective createNodeId) :
    (createS3ImageAssetNode createNode createNodeId mimeLookup e1
        (some fn1) u1).node?.map S3ImageAssetNode.id =
      some (createNodeId (stripQuotes t1)) ∧
    (stripQuotes t1 = stripQuotes t2 →
      (createS3ImageAssetNode createNode createNodeId mimeLookup e1
          (some fn1) u1).node?.map S3ImageAssetNode.id =
        (createS3ImageAssetNode createNode createNodeId mimeLookup e2
          (some fn2) u2).node?.map S3ImageAssetNode.id) ∧
    (stripQuotes t1 ≠ stripQuotes t2 →
      (createS3ImageAssetNode createNode createNodeId mimeLookup e1
          (some fn1) u1).node?.map S3ImageAssetNode.id ≠
        (createS3ImageAssetNode createNode createNodeId mimeLookup e2
          (some fn2) u2).node?.map S3ImageAssetNode.id) := by
  have k1 : (createS3ImageAssetNode createNode createNodeId mimeLookup e1
      (some fn1) u1).node?.map S3ImageAssetNode.id =
      some (createNodeId (stripQuotes t1)) := by
    simp [createS3ImageAssetNode, getEntityNodeFields, h1, BuildResult.node?]
  have k2 : (createS3ImageAssetNode createNode createNodeId mimeLookup e2
      (some fn2) u2).node?.map S3ImageAssetNode.id =
      some (createNodeId (stripQuotes t2)) := by
    simp [createS3ImageAssetNode, getEntityNodeFields, h2, BuildResult.node?]
  refine ⟨k1, ?_, ?_⟩
  · intro hEq
    rw [k1, k2, hEq]
  · intro hNe hEq
    rw [k1, k2] at hEq
    exact hNe (hinj (Option.some.inj hEq))

/-- Claim C4 witness: with the identity id function, `catObject`'s node id
is its unquoted ETag, and `zzzObject` (different unquoted ETag) gets a
different id. -/
theorem claim_C4_witness :
    (createS3ImageAssetNode (fun n => n) (fun s => s) sampleMime catObject
        (some sampleFileNode) "u1").node?.map S3ImageAssetNode.id =
      some (stripQuotes "\"abc123\"") ∧
    (createS3ImageAssetNode (fun n => n) (fun s => s) sampleMime catObject
        (some sampleFileNode) "u1").node?.map S3ImageAssetNode.id ≠
      (createS3ImageAssetNode (fun n => n) (fun s => s) sampleMime zzzObject
        (some sampleFileNode) "u2").node?.map S3ImageAssetNode.id :=
  ⟨(claim_C4 (fun n => n) (fun s => s) sampleMime catObject zzzObject
      sampleFileNode sampleFileNode "u1" "u2" "\"abc123\"" "\"zzz\"" rfl rfl
      (fun a b hab => hab)).1,
   (claim_C4 (fun n => n) (fun s => s) sampleMime catObject zzzObject
      sampleFileNode sampleFileNode "u1" "u2" "\"abc123\"" "\"zzz\"" rfl rfl
      (fun a b hab => hab)).2.2 (by decide)⟩

/-- Claim C7: an object the image classifier rejects is silently skipped:
its promise resolves with `undefined`, no fetch call and no `createNode`
call happen for it, and a run over any listing containing it performs
exactly the other entities' fetch and `createNode` calls. -/
theorem claim_C7 {R : Type} (env : PipelineEnv R) (pre post : List S3Object)
    (entity : S3Object) (h : isImage env.mimeLookup entity = false) :
    processEntity env entity =
      { slot := none, fetchCalls := [], createNodeCalls := [] } ∧
    (sourceNodes env (some (pre ++ entity :: post))).fetchCalls =
      (pre.map (fun e => (processEntity env e).fetchCalls)).flatten ++
        (post.map (fun e => (processEntity env e).fetchCalls)).flatten ∧
    (sourceNodes env (some (pre ++ entity :: post))).createNodeCalls =
      (pre.map (fun e => (processEntity env e).createNodeCalls)).flatten ++
        (post.map
          (fun e => (processEntity env e).createNodeCalls)).flatten := by
  have htrace : processEntity env entity =
      { slot := none, fetchCalls := [], createNodeCalls := [] } := by
    simp [processEntity, h]
  have hne : (pre ++ entity :: post).isEmpty = false := by
    cases pre <;> simp [List.isEmpty]
  refine ⟨htrace, ?_, ?_⟩ <;>
    simp [sourceNodes, hne, htrace]

/-- Claim C7 witness: `readme.txt` is skipped with no fetch and no node;
in a listing together with `cat.jpg` only the latter's calls happen. -/
theorem claim_C7_witness :
    processEntity (sampleEnv (fun _ => FetchOutcome.falsy)) readmeObject =
      { slot := none, fetchCalls := [], createNodeCalls := [] } ∧
    (sourceNodes (sampleEnv (fun _ => FetchOutcome.falsy))
        (some ([catObject] ++ readmeObject :: []))).fetchCalls =
      ([catObject].map
        (fun e =>
          (processEntity (sampleEnv (fun _ => FetchOutcome.falsy))
            e).fetchCalls)).flatten ++
        (([] : List S3Object).map
          (fun e =>
            (processEntity (sampleEnv (fun _ => FetchOutcome.falsy))
              e).fetchCalls)).flatten ∧
    (sourceNodes (sampleEnv (fun _ => FetchOutcome.falsy))
        (some ([catObject] ++ readmeObject :: []))).createNodeCalls =
      ([catObject].map
        (fun e =>
          (processEntity (sampleEnv (fun _ => FetchOutcome.falsy))
            e).createNodeCalls)).flatten ++
        (([] : List S3Object).map
          (fun e =>
            (processEntity (sampleEnv (fun _ => FetchOutcome.falsy))
              e).createNodeCalls)).flatten :=
  claim_C7 (sampleEnv (fun _ => FetchOutcome.falsy)) [catObject] []
    readmeObject (by decide)

/-- Claim C8: a qualifying object whose fetch resolves to a falsy file-node
descriptor is skipped silently: the fetch call happens, but no node is
built or created and the object's promise resolves with `undefined`. -/
theorem claim_C8 {R : Type} (env : PipelineEnv R) (entity : S3Object)
    (url : String) (himg : isImage env.mimeLookup entity = true)
    (hurl : constructS3UrlForAsset env.bucketName env.domain entity.Key
      env.protocol = some url)
    (hfalsy : env.fetch url = FetchOutcome.falsy) :
    processEntity env entity =
      { slot := none, fetchCalls := [url], createNodeCalls := [] } := by
  simp [processEntity, himg, hurl, hfalsy]

/-- Claim C8 witness: with a fetch resolving falsy, `cat.jpg` is fetched
once but yields no node and its slot is `undefined`. -/
theorem claim_C8_witness :
    processEntity (sampleEnv (fun _ => FetchOutcome.falsy)) catObject =
      { slot := none
        fetchCalls := ["https://s3.amazonaws.com/my-bucket/photos/cat.jpg"]
        createNodeCalls := [] } :=
  claim_C8 (sampleEnv (fun _ => FetchOutcome.falsy)) catObject
    "https://s3.amazonaws.com/my-bucket/photos/cat.jpg" (by decide)
    (by decide) rfl

end GatsbySourceS3
